import Mathlib

/-!
Shallow embedding of the load-cell protocol engine of this repository
(`loadcell_protocol.py`, the buffer scanners of `address_scanner.py` /
`dual_loadcell_auto.py`, the calibration logic of `dual_loadcell.py` /
`dual_loadcell_auto.py`, and the address guard of `loadcell_serial.py`),
together with theorems settling the frozen specification claims.

Bytes are modelled as `ℕ` (Python list-of-int buffers); machine masking is
written with explicit `% 2^w` and division; Python floats are modelled as `ℚ`.
-/

namespace LoadCell

/-- Protocol function code 0x05 (read). -/
def FUNC_READ : ℕ := 0x05

/-- Protocol function code 0x63 (write). -/
def FUNC_WRITE : ℕ := 0x63

/-- Register 0x05: load-cell id. -/
def REG_ID_READ : ℕ := 0x05

/-- Register 0x02: weight. -/
def REG_WEIGHT_READ : ℕ := 0x02

/-- Register 0x10: device address. -/
def REG_ADDRESS : ℕ := 0x10

/-- Register 0x06: zero set (also accepted as the continuous-update function code). -/
def REG_ZERO_SET : ℕ := 0x06

/-- Broadcast destination address. -/
def BROADCAST_ADDR : ℕ := 0x00

/-- Constant argument byte used by the read commands. -/
def CONST_VALUE : ℕ := 0x05

/-- Fixed argument byte of the zero-set command. -/
def ZERO_SET_VALUE : ℕ := 0x03

/-- The 15-entry resolution table (grams per raw unit), from
`LoadCellProtocol.RESOLUTION_TABLE`. -/
def RESOLUTION_TABLE : List ℚ :=
  [1/10, 1/5, 1/2, 1, 2, 5, 10, 20, 50, 100, 200, 500, 1000, 2000, 5000]

/-- `LoadCellProtocol.calculate_checksum`: sum of all bytes, masked to 8 bits
(`sum(data) & 0xFF`). -/
def calculate_checksum (data : List ℕ) : ℕ := data.sum % 256

/-- `LoadCellProtocol.create_id_read_command`. -/
def create_id_read_command : List ℕ :=
  let cmd := [BROADCAST_ADDR, FUNC_READ, REG_ID_READ, CONST_VALUE]
  cmd ++ [calculate_checksum cmd]

/-- `LoadCellProtocol.create_weight_read_command`. -/
def create_weight_read_command : List ℕ :=
  let cmd := [BROADCAST_ADDR, FUNC_READ, REG_WEIGHT_READ, CONST_VALUE]
  cmd ++ [calculate_checksum cmd]

/-- `LoadCellProtocol.create_address_change_command`: note the source performs
no range validation on `new_address`. -/
def create_address_change_command (new_address : ℕ) : List ℕ :=
  let cmd := [BROADCAST_ADDR, FUNC_WRITE, REG_ADDRESS, new_address]
  cmd ++ [calculate_checksum cmd]

/-- `LoadCellProtocol.create_zero_set_command`. -/
def create_zero_set_command : List ℕ :=
  let cmd := [BROADCAST_ADDR, FUNC_WRITE, REG_ZERO_SET, ZERO_SET_VALUE]
  cmd ++ [calculate_checksum cmd]

/-- `LoadCellSerial.change_address`: guards the target range 1..10 and only
then constructs and transmits the command; out of range it returns failure
(`False`) without constructing anything.  `some cmd` models "command `cmd`
constructed and sent", `none` models the silent refusal. -/
def change_address (new_address : ℕ) : Option (List ℕ) :=
  if 1 ≤ new_address ∧ new_address ≤ 10 then
    some (create_address_change_command new_address)
  else
    none

/-- The empirical divisor `565.4` used by the 9-byte weight path
(`weight = raw_weight / 565.4`). -/
def EMPIRICAL_DIVISOR : ℚ := 5654 / 10

/-- Result of `LoadCellProtocol.parse_weight_response`. -/
structure WeightData where
  status : ℕ
  division : ℕ
  raw_weight : ℕ
  weight : ℚ
  resolution : ℚ
  is_negative : Bool
deriving DecidableEq

/-- `LoadCellProtocol.parse_weight_response`.  Mirrors the Python early
returns: length below 8, register byte other than 0x02, or function byte
outside {0x05, 0x06} give `none`; no checksum is verified here.
`data[4] & 0x0F` is written `% 16`, the sign test `data[4] & 0x80` is written
`/ 128 % 2 == 1`. -/
def parse_weight_response (data : List ℕ) : Option WeightData :=
  if data.length < 8 then none
  else if data.getD 2 0 ≠ REG_WEIGHT_READ then none
  else if data.getD 1 0 ≠ FUNC_READ ∧ data.getD 1 0 ≠ REG_ZERO_SET then none
  else
    let status := data.getD 3 0
    let division := data.getD 4 0 % 16
    let raw_weight : ℕ :=
      if 9 ≤ data.length then
        data.getD 5 0 * 65536 + data.getD 6 0 * 256 + data.getD 7 0
      else
        (data.getD 6 0 / 16 % 16) * 1000 + (data.getD 6 0 % 16) * 100 +
          (data.getD 7 0 / 16 % 16) * 10 + data.getD 7 0 % 16
    let resolution : ℚ :=
      if division < RESOLUTION_TABLE.length then RESOLUTION_TABLE.getD division 0
      else 1
    let weight0 : ℚ :=
      if 9 ≤ data.length then (raw_weight : ℚ) / EMPIRICAL_DIVISOR
      else resolution * (raw_weight : ℚ)
    let is_negative : Bool := data.getD 4 0 / 128 % 2 == 1
    let weight : ℚ := if is_negative then -weight0 else weight0
    some ⟨status, division, raw_weight, weight, resolution, is_negative⟩

/-- The shape test of the scanner loops (`address_scanner.process_buffer` and
`DualLoadCellMonitorAuto.update_display`): byte `i+1` is function 0x05 or 0x06
and byte `i+2` is register 0x02, read at offsets 1 and 2 of the current
buffer suffix. -/
def looks_like_weight_response (buffer : List ℕ) : Bool :=
  (buffer.getD 1 0 == 0x05 || buffer.getD 1 0 == 0x06) && buffer.getD 2 0 == 0x02

/-- Candidate response length: `9 if (i + 9 <= len(buffer)) else 8`, relative
to the current buffer suffix. -/
def response_length (buffer : List ℕ) : ℕ :=
  if 9 ≤ buffer.length then 9 else 8

/-- Checksum test of a candidate response slice:
`sum(response[:response_len-1]) & 0xFF == response[response_len-1]`. -/
def checksum_ok (response : List ℕ) : Bool :=
  (response.take (response.length - 1)).sum % 256 == response.getD (response.length - 1) 0

/-- Loop body of the scanner, with the remaining buffer suffix as argument in
place of the index `i`; `fuel` bounds the number of iterations (the Python
loop advances `i` by at least 1 each iteration, so `buffer.length` iterations
always suffice).  When fewer than 8 bytes remain the loop only steps `i` to
the end without emitting anything, modelled by returning `[]`. -/
def process_buffer_go : ℕ → List ℕ → List (List ℕ)
  | 0, _ => []
  | fuel + 1, buffer =>
    if 8 ≤ buffer.length then
      if looks_like_weight_response buffer then
        if checksum_ok (buffer.take (response_length buffer)) then
          buffer.take (response_length buffer) ::
            process_buffer_go fuel (buffer.drop (response_length buffer))
        else
          process_buffer_go fuel (buffer.drop (response_length buffer))
      else
        process_buffer_go fuel (buffer.drop 1)
    else []

/-- The scanner of `address_scanner.process_buffer` /
`DualLoadCellMonitorAuto.update_display` (both share this frame-extraction
loop): the list of checksum-valid responses extracted from `buffer`, in
order. -/
def process_buffer (buffer : List ℕ) : List (List ℕ) :=
  process_buffer_go buffer.length buffer

/-- Per-device calibration state of `DualLoadCellMonitor`
(`loadcellN_raw`, `loadcellN_zero`, `loadcellN_factor`). -/
structure CellState where
  raw : ℚ
  zero : ℚ
  factor : ℚ
deriving DecidableEq

/-- Failure of the weight-calibration dialog path. -/
inductive CalibrationError where
  | tooCloseToZero
deriving DecidableEq

/-- `DualLoadCellMonitor.calibrate_weight_1` / `calibrate_weight_2`: under the
dialog guard `ok and actual_weight > 0`, compute `zeroed = raw - zero`; warn
and leave the state unchanged when `|zeroed| < 0.1`; otherwise replace the
factor outright with `actual_weight / zeroed`.  The pair returns the
(possibly unchanged) state together with the surfaced error, if any. -/
def calibrate_weight (st : CellState) (actual_weight : ℚ) :
    CellState × Option CalibrationError :=
  if 0 < actual_weight then
    if |st.raw - st.zero| < 1/10 then
      (st, some CalibrationError.tooCloseToZero)
    else
      ({ st with factor := actual_weight / (st.raw - st.zero) }, none)
  else
    (st, none)

/-- Per-address entry of `DualLoadCellMonitorAuto.address_data`
(`raw`, `zero`, `factor`, `weight`). -/
structure AddressData where
  raw : ℚ
  zero : ℚ
  factor : ℚ
  weight : ℚ
deriving DecidableEq

/-- Fresh entry created on first sighting of an address
(`{'raw': 0.0, 'zero': 0.0, 'factor': 1.0, 'weight': 0.0}`). -/
def fresh_address_data : AddressData := ⟨0, 0, 1, 0⟩

/-- The address-indexed registry `address_data` (a Python dict). -/
def Registry : Type := ℕ → Option AddressData

/-- `DualLoadCellMonitorAuto.calibrate_zero`: set the entry's zero offset to
its current raw value; entries of other addresses are untouched.  An address
without an entry is left absent (the GUI only offers the button for detected
addresses). -/
def calibrate_zero (reg : Registry) (address : ℕ) : Registry :=
  fun a =>
    if a = address then (reg address).map (fun d => { d with zero := d.raw })
    else reg a

/-- Registry effect of one valid weight response in
`DualLoadCellMonitorAuto.update_display`: create the entry if the address is
new, store the decoded raw value, and recompute
`weight = (raw - zero) * factor`; entries of other addresses are untouched. -/
def record_sample (reg : Registry) (address : ℕ) (raw_value : ℚ) : Registry :=
  fun a =>
    if a = address then
      let d := (reg address).getD fresh_address_data
      some { d with raw := raw_value, weight := (raw_value - d.zero) * d.factor }
    else reg a

/-- A checksum-valid 8-byte weight frame: `01 05 02 00 09 01 02 14`
(sum of the first seven bytes is 0x14). -/
def frame8_example : List ℕ := [0x01, 0x05, 0x02, 0x00, 0x09, 0x01, 0x02, 0x14]

/-- A checksum-valid 9-byte weight frame: `01 05 02 00 00 00 C5 1A E7`
(sum of the first eight bytes is 0xE7). -/
def frame9_example : List ℕ :=
  [0x01, 0x05, 0x02, 0x00, 0x00, 0x00, 0xC5, 0x1A, 0xE7]

example : checksum_ok frame8_example = true := by decide
example : checksum_ok frame9_example = true := by decide
example : process_buffer (0xFF :: (frame8_example ++ frame9_example)) = [] := by decide
example : process_buffer (frame8_example ++ [0x00]) = [] := by decide
example : process_buffer frame8_example = [frame8_example] := by decide
example : process_buffer frame9_example = [frame9_example] := by decide
example : process_buffer (frame9_example ++ frame9_example) = [frame9_example, frame9_example] := by decide

/-- The candidate length is always at least 1 (it is 8 or 9). -/
lemma response_length_pos (buffer : List ℕ) : 1 ≤ response_length buffer := by
  unfold response_length
  split <;> omega

/-- One-step unfolding of the scanner loop body. -/
lemma process_buffer_go_succ_eq (fuel : ℕ) (buffer : List ℕ) :
    process_buffer_go (fuel + 1) buffer =
      if 8 ≤ buffer.length then
        if looks_like_weight_response buffer then
          if checksum_ok (buffer.take (response_length buffer)) then
            buffer.take (response_length buffer) ::
              process_buffer_go fuel (buffer.drop (response_length buffer))
          else
            process_buffer_go fuel (buffer.drop (response_length buffer))
        else
          process_buffer_go fuel (buffer.drop 1)
      else [] := rfl

/-- Extra fuel beyond the buffer length does not change the scan result. -/
lemma process_buffer_go_succ (fuel : ℕ) :
    ∀ buffer : List ℕ, buffer.length ≤ fuel →
      process_buffer_go (fuel + 1) buffer = process_buffer_go fuel buffer := by
  induction fuel with
  | zero =>
    intro buffer h
    have hb : buffer = [] := List.eq_nil_of_length_eq_zero (Nat.le_zero.mp h)
    subst hb
    rfl
  | succ fuel ih =>
    intro buffer h
    have hdrop : (buffer.drop (response_length buffer)).length ≤ fuel := by
      have := response_length_pos buffer
      simp only [List.length_drop]
      omega
    have hdrop1 : (buffer.drop 1).length ≤ fuel := by
      simp only [List.length_drop]
      omega
    rw [process_buffer_go_succ_eq (fuel + 1) buffer, process_buffer_go_succ_eq fuel buffer]
    split_ifs
    · rw [ih _ hdrop]
    · exact ih _ hdrop
    · exact ih _ hdrop1
    · rfl

/-- Any fuel at least the buffer length computes the scan. -/
lemma process_buffer_go_eq (fuel : ℕ) :
    ∀ buffer : List ℕ, buffer.length ≤ fuel →
      process_buffer_go fuel buffer = process_buffer buffer := by
  induction fuel with
  | zero =>
    intro buffer h
    have hb : buffer = [] := List.eq_nil_of_length_eq_zero (Nat.le_zero.mp h)
    subst hb
    rfl
  | succ fuel ih =>
    intro buffer h
    by_cases hf : buffer.length ≤ fuel
    · rw [process_buffer_go_succ fuel buffer hf, ih buffer hf]
    · have hlen : buffer.length = fuel + 1 := by omega
      unfold process_buffer
      rw [hlen]

/-- One scan step at a plausible start: the candidate slice is emitted
exactly when its checksum validates, and the scan continues after the
candidate-length bytes in either case. -/
lemma process_buffer_emit (buffer : List ℕ) (h8 : 8 ≤ buffer.length)
    (hw : looks_like_weight_response buffer = true) :
    process_buffer buffer =
      (if checksum_ok (buffer.take (response_length buffer)) then
        [buffer.take (response_length buffer)]
      else []) ++ process_buffer (buffer.drop (response_length buffer)) := by
  have hlen : buffer.length = (buffer.length - 1) + 1 := by omega
  have hdrop : (buffer.drop (response_length buffer)).length ≤ buffer.length - 1 := by
    have := response_length_pos buffer
    simp only [List.length_drop]
    omega
  show process_buffer_go buffer.length buffer = _
  rw [hlen, process_buffer_go_succ_eq, if_pos h8, if_pos hw]
  split_ifs with hck
  · rw [process_buffer_go_eq _ _ hdrop]
    rfl
  · rw [process_buffer_go_eq _ _ hdrop]
    rfl

/-- One scan step at an offset that is not a plausible start: advance by one
byte. -/
lemma process_buffer_skip (buffer : List ℕ) (h8 : 8 ≤ buffer.length)
    (hw : looks_like_weight_response buffer = false) :
    process_buffer buffer = process_buffer (buffer.drop 1) := by
  have hlen : buffer.length = (buffer.length - 1) + 1 := by omega
  have hdrop1 : (buffer.drop 1).length ≤ buffer.length - 1 := by
    simp only [List.length_drop]
    omega
  have hw' : ¬ looks_like_weight_response buffer = true := by
    simp [hw]
  show process_buffer_go buffer.length buffer = _
  rw [hlen, process_buffer_go_succ_eq, if_pos h8, if_neg hw']
  exact process_buffer_go_eq _ _ hdrop1

/-- A buffer of one garbage byte, then the valid 8-byte frame, then the valid
9-byte frame. -/
def noise_buffer : List ℕ := 0xFF :: (frame8_example ++ frame9_example)

/-- C1 counterexample: on the buffer `[garbage byte][valid 8-byte weight
frame][valid 9-byte weight frame]` the scanner recovers no frames at all
instead of the two frames the claim promises.  Both frames are individually
checksum-valid and plausible; at the 8-byte frame start 9 bytes remain, so
the scan grabs a 9-byte candidate whose checksum fails and then jumps 9
bytes, destroying both frames. -/
theorem scanner_noise_recovery_fails :
    process_buffer noise_buffer = [] ∧
      process_buffer noise_buffer ≠ [frame8_example, frame9_example] ∧
      checksum_ok frame8_example = true ∧
      checksum_ok frame9_example = true ∧
      looks_like_weight_response frame8_example = true ∧
      looks_like_weight_response frame9_example = true := by
  decide

/-- C1 (amended): when the scanner rejects a tentative frame start (a
plausible function/register pair whose checksum validation fails), it
advances the scan position by the candidate response length (9 if at least 9
bytes remain, else 8), not by 1 byte; the byte-at-a-time advance happens only
at offsets whose function/register pair is not plausible.  Consequently the
garbage-then-two-valid-frames buffer yields no frames. -/
theorem scanner_rejection_advances_candidate_length (buffer : List ℕ)
    (h8 : 8 ≤ buffer.length)
    (hw : looks_like_weight_response buffer = true)
    (hck : checksum_ok (buffer.take (response_length buffer)) = false) :
    process_buffer buffer = process_buffer (buffer.drop (response_length buffer)) := by
  rw [process_buffer_emit buffer h8 hw]
  simp [hck]

/-- C1 witness: the amended advance rule applied at the concrete rejected
start `frame8_example ++ frame9_example` (whose 9-byte candidate fails the
checksum). -/
theorem scanner_rejection_advances_candidate_length_witness :
    process_buffer (frame8_example ++ frame9_example) =
      process_buffer ((frame8_example ++ frame9_example).drop
        (response_length (frame8_example ++ frame9_example))) :=
  scanner_rejection_advances_candidate_length _ (by decide) (by decide) (by decide)

/-- C2 counterexample: on the 9-byte buffer `frame8_example ++ [00]` the
9-byte-shape checksum fails while the 8-byte-shape checksum validates, so
the claim demands the 8-byte frame be selected and emitted; the code instead
commits to candidate length 9 (because 9 bytes remain), rejects it, and
emits nothing. -/
theorem scanner_length_selection_counterexample :
    9 ≤ (frame8_example ++ [0x00]).length ∧
      checksum_ok ((frame8_example ++ [0x00]).take 9) = false ∧
      checksum_ok ((frame8_example ++ [0x00]).take 8) = true ∧
      process_buffer (frame8_example ++ [0x00]) = [] ∧
      process_buffer (frame8_example ++ [0x00]) ≠ [frame8_example] := by
  decide

/-- C2 (amended): at a tentative frame start the scanner selects candidate
length 9 whenever at least 9 bytes remain (regardless of checksum), else 8;
it validates the checksum only at that single candidate length, emits the
candidate slice exactly when that checksum validates, and in either case
continues after the candidate-length bytes — there is no checksum-driven
fallback from length 9 to length 8. -/
theorem scanner_candidate_length_selection (buffer : List ℕ)
    (h8 : 8 ≤ buffer.length)
    (hw : looks_like_weight_response buffer = true) :
    process_buffer buffer =
      (if checksum_ok (buffer.take (if 9 ≤ buffer.length then 9 else 8)) then
        [buffer.take (if 9 ≤ buffer.length then 9 else 8)]
      else []) ++
        process_buffer (buffer.drop (if 9 ≤ buffer.length then 9 else 8)) :=
  process_buffer_emit buffer h8 hw

/-- C2 witness: the amended selection rule applied at the concrete buffer
`frame8_example ++ [00]`. -/
theorem scanner_candidate_length_selection_witness :
    process_buffer (frame8_example ++ [0x00]) =
      (if checksum_ok ((frame8_example ++ [0x00]).take
          (if 9 ≤ (frame8_example ++ [0x00]).length then 9 else 8)) then
        [(frame8_example ++ [0x00]).take
          (if 9 ≤ (frame8_example ++ [0x00]).length then 9 else 8)]
      else []) ++
        process_buffer ((frame8_example ++ [0x00]).drop
          (if 9 ≤ (frame8_example ++ [0x00]).length then 9 else 8)) :=
  scanner_candidate_length_selection _ (by decide) (by decide)

/-- The 8-byte weight frame of the repository's own protocol test
(`test_parse_weight_response`): `01 05 02 00 09 01 02 03`. -/
def weight_test_frame : List ℕ := [0x01, 0x05, 0x02, 0x00, 0x09, 0x01, 0x02, 0x03]

/-- C3: decoding the 8-byte BCD frame `01 05 02 00 09 01 02 03` actually
yields division 9 and resolution 100 g as claimed, but raw magnitude 203 and
weight 20300 g — the code reads the BCD digits from bytes 6 and 7 (`02 03`),
while the claim (and the repository's own test assertion) expects raw 291 and
weight 29100 g. -/
theorem parse_weight_bcd_test_frame_eval :
    parse_weight_response weight_test_frame = some ⟨0, 9, 203, 20300, 100, false⟩ ∧
      parse_weight_response weight_test_frame ≠ some ⟨0, 9, 291, 29100, 100, false⟩ := by
  have h : parse_weight_response weight_test_frame = some ⟨0, 9, 203, 20300, 100, false⟩ := by
    norm_num [parse_weight_response, weight_test_frame, RESOLUTION_TABLE,
      REG_WEIGHT_READ, FUNC_READ, REG_ZERO_SET, List.getD]
  refine ⟨h, ?_⟩
  rw [h]
  simp

/-- C4: for every validated 9-byte weight frame (in-range bytes, weight
register, accepted function code, valid checksum), the decoder returns a
sample whose raw magnitude is the big-endian 24-bit value of bytes 5..7,
whose weight is that raw magnitude divided by 565.4, negated exactly when
bit 7 of byte 4 (the sign bit) is set. -/
theorem parse_weight_nine_byte_binary (f : List ℕ)
    (hlen : f.length = 9)
    (hbytes : ∀ b ∈ f, b < 256)
    (hreg : f.getD 2 0 = 0x02)
    (hfunc : f.getD 1 0 = 0x05 ∨ f.getD 1 0 = 0x06)
    (_hck : checksum_ok f = true) :
    ∃ w, parse_weight_response f = some w ∧
      w.raw_weight = f.getD 5 0 * 65536 + f.getD 6 0 * 256 + f.getD 7 0 ∧
      w.weight =
        (if 128 ≤ f.getD 4 0 then -((w.raw_weight : ℚ) / EMPIRICAL_DIVISOR)
        else (w.raw_weight : ℚ) / EMPIRICAL_DIVISOR) ∧
      (w.is_negative = true ↔ 128 ≤ f.getD 4 0) := by
  have h4 : f.getD 4 0 < 256 := by
    apply hbytes
    have h5 : 4 < f.length := by omega
    rw [List.getD_eq_getElem f 0 h5]
    exact List.getElem_mem h5
  have hn8 : ¬ (f.length < 8) := by omega
  have hreg' : ¬ (f.getD 2 0 ≠ REG_WEIGHT_READ) := by
    rw [hreg]
    simp [REG_WEIGHT_READ]
  have hfunc' : ¬ (f.getD 1 0 ≠ FUNC_READ ∧ f.getD 1 0 ≠ REG_ZERO_SET) := by
    rcases hfunc with h | h <;> rw [h] <;> simp [FUNC_READ, REG_ZERO_SET]
  have h9 : 9 ≤ f.length := by omega
  have hsign : (f.getD 4 0 / 128 % 2 == 1) = decide (128 ≤ f.getD 4 0) := by
    revert h4
    generalize f.getD 4 0 = x
    intro h4
    rcases Nat.lt_or_ge x 128 with hlt | hge
    · have h1 : x / 128 % 2 = 0 := by omega
      have h2 : decide (128 ≤ x) = false := decide_eq_false (by omega)
      rw [h1, h2]
      rfl
    · have h1 : x / 128 % 2 = 1 := by omega
      have h2 : decide (128 ≤ x) = true := decide_eq_true hge
      rw [h1, h2]
      rfl
  simp only [parse_weight_response, if_neg hn8, if_neg hreg', if_neg hfunc', if_pos h9]
  refine ⟨_, rfl, rfl, ?_, ?_⟩
  · rw [hsign]
    by_cases hge : 128 ≤ f.getD 4 0
    · rw [decide_eq_true hge, if_pos rfl, if_pos hge]
    · rw [decide_eq_false hge, if_neg (by simp), if_neg hge]
  · rw [hsign]
    simp

/-- C4 witness: the decoder applied to the concrete checksum-valid 9-byte
frame `01 05 02 00 00 00 C5 1A E7`. -/
theorem parse_weight_nine_byte_binary_witness :
    ∃ w, parse_weight_response frame9_example = some w ∧
      w.raw_weight = frame9_example.getD 5 0 * 65536 +
        frame9_example.getD 6 0 * 256 + frame9_example.getD 7 0 ∧
      w.weight =
        (if 128 ≤ frame9_example.getD 4 0 then
          -((w.raw_weight : ℚ) / EMPIRICAL_DIVISOR)
        else (w.raw_weight : ℚ) / EMPIRICAL_DIVISOR) ∧
      (w.is_negative = true ↔ 128 ≤ frame9_example.getD 4 0) :=
  parse_weight_nine_byte_binary frame9_example (by decide) (by decide) (by decide)
    (by decide) (by decide)

/-- C5: the four command encoders produce exactly the claimed byte
sequences, each ending in a checksum byte equal to the unsigned sum of the
preceding 4 bytes modulo 256. -/
theorem command_encoders_exact :
    create_weight_read_command = [0x00, 0x05, 0x02, 0x05, 0x0C] ∧
      create_id_read_command = [0x00, 0x05, 0x05, 0x05, 0x0F] ∧
      create_address_change_command 5 = [0x00, 0x63, 0x10, 0x05, 0x78] ∧
      create_zero_set_command = [0x00, 0x63, 0x06, 0x03, 0x6C] ∧
      (∀ cmd ∈ [create_weight_read_command, create_id_read_command,
          create_address_change_command 5, create_zero_set_command],
        cmd.getD 4 0 = (cmd.take 4).sum % 256) := by
  decide

/-- C6 counterexample: command construction for address-change does not fail
on the out-of-range target 11 — `create_address_change_command` performs no
range validation and happily produces the command bytes `00 63 10 0B 7E`. -/
theorem address_change_construction_unvalidated :
    create_address_change_command 11 = [0x00, 0x63, 0x10, 0x0B, 0x7E] := by
  decide

/-- C6 (amended): the range guard lives in `LoadCellSerial.change_address`,
not in command construction: for every target outside 1..10 `change_address`
returns failure (`False`, here `none`) without constructing or transmitting
any command and raises no error, and for every target in 1..10 it constructs
and sends the 5-byte address-change command; `create_address_change_command`
itself validates nothing and produces bytes for any target. -/
theorem change_address_range_guard (a : ℕ) :
    (¬ (1 ≤ a ∧ a ≤ 10) → change_address a = none) ∧
      (1 ≤ a ∧ a ≤ 10 →
        change_address a = some (create_address_change_command a)) := by
  constructor
  · intro h
    simp [change_address, h]
  · intro h
    simp [change_address, h]

/-- C6 witness: the guard applied at the out-of-range target 11 and the
in-range target 5. -/
theorem change_address_range_guard_witness :
    change_address 11 = none ∧
      change_address 5 = some (create_address_change_command 5) :=
  ⟨(change_address_range_guard 11).1 (by decide),
   (change_address_range_guard 5).2 (by decide)⟩

/-- C7: for every byte sequence the weight decoder accepts, the division is
byte 4 masked to its low nibble, hence at most 15; a division below 15 (a
valid index into the 15-entry resolution table) yields the table's resolution
in grams, and the out-of-range division 15 falls back to a resolution of
1 gram; the frame is decoded either way, never rejected. -/
theorem parse_weight_division_resolution (d : List ℕ)
    (hlen : 8 ≤ d.length)
    (hreg : d.getD 2 0 = 0x02)
    (hfunc : d.getD 1 0 = 0x05 ∨ d.getD 1 0 = 0x06) :
    ∃ w, parse_weight_response d = some w ∧
      w.division = d.getD 4 0 % 16 ∧
      w.division ≤ 15 ∧
      (w.division < 15 → w.resolution = RESOLUTION_TABLE.getD w.division 0) ∧
      (w.division = 15 → w.resolution = 1) := by
  have hn8 : ¬ (d.length < 8) := by omega
  have hreg' : ¬ (d.getD 2 0 ≠ REG_WEIGHT_READ) := by
    rw [hreg]
    simp [REG_WEIGHT_READ]
  have hfunc' : ¬ (d.getD 1 0 ≠ FUNC_READ ∧ d.getD 1 0 ≠ REG_ZERO_SET) := by
    rcases hfunc with h | h <;> rw [h] <;> simp [FUNC_READ, REG_ZERO_SET]
  have hlen15 : RESOLUTION_TABLE.length = 15 := rfl
  simp only [parse_weight_response, if_neg hn8, if_neg hreg', if_neg hfunc']
  refine ⟨_, rfl, rfl, ?_, ?_, ?_⟩
  · dsimp only
    omega
  · intro hdiv
    dsimp only at hdiv ⊢
    rw [if_pos (by rw [hlen15]; exact hdiv)]
  · intro hdiv
    dsimp only at hdiv ⊢
    rw [hdiv, hlen15]
    simp

/-- C7 witness: the decoder applied to a frame whose division nibble is 15,
exercising the 1-gram fallback. -/
theorem parse_weight_division_resolution_witness :
    ∃ w, parse_weight_response [0x01, 0x05, 0x02, 0x00, 0x0F, 0x00, 0x00, 0x00] = some w ∧
      w.division = [0x01, 0x05, 0x02, 0x00, 0x0F, 0x00, 0x00, 0x00].getD 4 0 % 16 ∧
      w.division ≤ 15 ∧
      (w.division < 15 → w.resolution = RESOLUTION_TABLE.getD w.division 0) ∧
      (w.division = 15 → w.resolution = 1) :=
  parse_weight_division_resolution _ (by decide) (by decide) (by decide)

/-- C8: calibrating a device with a known weight computes
`zeroed = raw - zero`; when `|zeroed| < 0.1` the calibration fails with the
too-close-to-zero error and the whole state (in particular the scale factor)
is unchanged; otherwise the scale factor is replaced outright with
`known_weight / zeroed` (not multiplied into the existing factor). -/
theorem calibrate_weight_replaces_factor (st : CellState) (w : ℚ) (hw : 0 < w) :
    (|st.raw - st.zero| < 1/10 →
      calibrate_weight st w = (st, some CalibrationError.tooCloseToZero)) ∧
      (¬ |st.raw - st.zero| < 1/10 →
        calibrate_weight st w = ({ st with factor := w / (st.raw - st.zero) }, none)) := by
  constructor
  · intro h
    unfold calibrate_weight
    rw [if_pos hw, if_pos h]
  · intro h
    unfold calibrate_weight
    rw [if_pos hw, if_neg h]

/-- C8 witness: a device with raw reading 100 g, zero offset 0 and factor 1,
calibrated with a known 500 g weight, gets its factor replaced by 5. -/
theorem calibrate_weight_replaces_factor_witness :
    calibrate_weight ⟨100, 0, 1⟩ 500 = (⟨100, 0, 5⟩, none) := by
  have h := (calibrate_weight_replaces_factor ⟨100, 0, 1⟩ 500 (by norm_num)).2
    (by norm_num)
  rw [h]
  norm_num

/-- C9: per-device registry state is isolated — for distinct addresses
`a ≠ b`, zeroing `a` and recording a weight sample carrying address `a` both
leave `b`'s entry (zero offset, scale factor, last weights) untouched, and
zeroing `a` rewrites only the zero-offset field of `a`'s entry. -/
theorem registry_isolation (reg : Registry) (a b : ℕ) (w : ℚ) (hab : a ≠ b) :
    calibrate_zero reg a b = reg b ∧
      record_sample reg a w b = reg b ∧
      calibrate_zero reg a a =
        (reg a).map (fun d => ⟨d.raw, d.raw, d.factor, d.weight⟩) := by
  refine ⟨?_, ?_, ?_⟩
  · simp [calibrate_zero, Ne.symm hab]
  · simp [record_sample, Ne.symm hab]
  · simp [calibrate_zero]

/-- A concrete two-device registry for the C9 witness. -/
def example_registry : Registry := fun a =>
  if a = 3 then some ⟨5, 1, 2, 8⟩
  else if a = 4 then some ⟨7, 2, 3, 15⟩
  else none

/-- C9 witness: isolation applied at the concrete registry with devices at
addresses 3 and 4. -/
theorem registry_isolation_witness :
    calibrate_zero example_registry 3 4 = example_registry 4 ∧
      record_sample example_registry 3 42 4 = example_registry 4 ∧
      calibrate_zero example_registry 3 3 =
        (example_registry 3).map (fun d => ⟨d.raw, d.raw, d.factor, d.weight⟩) :=
  registry_isolation example_registry 3 4 42 (by decide)

/-- C10: the weight-response parser performs no checksum verification —
it returns a decoded sample exactly when the byte sequence has length at
least 8, carries the weight register 0x02 at offset 2 and a function code in
{0x05, 0x06} at offset 1, whatever the trailing checksum byte is. -/
theorem parse_weight_no_checksum_check (d : List ℕ) :
    (parse_weight_response d).isSome = true ↔
      8 ≤ d.length ∧ d.getD 2 0 = 0x02 ∧
        (d.getD 1 0 = 0x05 ∨ d.getD 1 0 = 0x06) := by
  simp only [parse_weight_response]
  by_cases h1 : d.length < 8
  · rw [if_pos h1]
    simp only [Option.isSome_none, Bool.false_eq_true, false_iff]
    rintro ⟨h8, -, -⟩
    omega
  · rw [if_neg h1]
    by_cases h2 : d.getD 2 0 ≠ REG_WEIGHT_READ
    · rw [if_pos h2]
      simp only [Option.isSome_none, Bool.false_eq_true, false_iff]
      rintro ⟨-, hreg, -⟩
      exact h2 hreg
    · rw [if_neg h2]
      by_cases h3 : d.getD 1 0 ≠ FUNC_READ ∧ d.getD 1 0 ≠ REG_ZERO_SET
      · rw [if_pos h3]
        simp only [Option.isSome_none, Bool.false_eq_true, false_iff]
        rintro ⟨-, -, hf | hf⟩
        · exact h3.1 hf
        · exact h3.2 hf
      · rw [if_neg h3]
        simp only [Option.isSome_some, true_iff]
        refine ⟨by omega, not_not.mp h2, ?_⟩
        by_cases h5 : d.getD 1 0 = 5
        · exact Or.inl h5
        · right
          by_contra h6
          exact h3 ⟨h5, h6⟩

/-- C10 witness: a frame whose trailing checksum byte is wrong (the sum of
the first seven bytes is 0x14, not 0x63) is still decoded. -/
theorem parse_weight_no_checksum_check_witness :
    (parse_weight_response [0x01, 0x05, 0x02, 0x00, 0x09, 0x01, 0x02, 0x63]).isSome = true :=
  (parse_weight_no_checksum_check _).mpr (by decide)

end LoadCell
